import Mathlib

/-!
# cepTemperatura: postal code to temperature

A shallow embedding of the two services of the repository:

* `recebeCep` (the Gateway, `src/recebeCep/main.go`),
* `temperaturacep` (the Resolver, `src/temperaturacep/main.go`),

together with the parts of the Go standard library their decision logic runs
through: `regexp` (the fragment the pattern uses), `net/http` response
writers, `net/url` query escaping, IEEE-754 binary64 arithmetic and Unicode
normalisation.
-/

set_option autoImplicit false

/-- Equality of results is decidable when it is for errors and values. -/
instance instDecidableEqExcept {ε α : Type} [DecidableEq ε] [DecidableEq α] :
    DecidableEq (Except ε α)
  | .ok a, .ok b => if h : a = b then isTrue (by rw [h]) else isFalse (by intro g; cases g; exact h rfl)
  | .error a, .error b =>
    if h : a = b then isTrue (by rw [h]) else isFalse (by intro g; cases g; exact h rfl)
  | .ok _, .error _ => isFalse (by intro g; cases g)
  | .error _, .ok _ => isFalse (by intro g; cases g)

/-! ## regexp: the fragment of RE2 the pattern uses -/

namespace regexp

/-- Abstract syntax of the regular expressions used by the services: the
anchors of a pattern compiled without flags, a character range, sequencing
and bounded repetition. -/
inductive Regexp where
  /-- The anchor written as a caret: without the m flag, start of the text. -/
  | beginText
  /-- The anchor written as a dollar: without the m flag, end of the text. -/
  | endText
  /-- A class with one range, such as the digits. -/
  | charRange (lo hi : Char)
  /-- One expression followed by another. -/
  | cat (a b : Regexp)
  /-- Exactly `n` copies of an expression. -/
  | rep (a : Regexp) (n : Nat)

/-- Run a matcher `n` times in a row, then the continuation. -/
def iterate (m : Nat → List Char → (Nat → List Char → Bool) → Bool) :
    Nat → Nat → List Char → (Nat → List Char → Bool) → Bool
  | 0, pos, inp, k => k pos inp
  | n + 1, pos, inp, k => m pos inp (fun p i => iterate m n p i k)

/-- Backtracking matcher in continuation-passing style: `pos` is the number
of characters already consumed from the start of the text, `inp` the rest of
the text, `k` what must match after the expression. -/
def Regexp.matchK : Regexp → Nat → List Char → (Nat → List Char → Bool) → Bool
  | .beginText, pos, inp, k => pos == 0 && k pos inp
  | .endText, pos, inp, k => inp.isEmpty && k pos inp
  | .charRange _ _, _, [], _ => false
  | .charRange lo hi, pos, c :: cs, k => decide (lo ≤ c) && decide (c ≤ hi) && k (pos + 1) cs
  | .cat a b, pos, inp, k => a.matchK pos inp (fun p i => b.matchK p i k)
  | .rep a n, pos, inp, k => iterate a.matchK n pos inp k

/-- Unanchored search: try a match at the current position, then further on. -/
def Regexp.searchFrom (re : Regexp) : Nat → List Char → Bool
  | pos, [] => re.matchK pos [] (fun _ _ => true)
  | pos, c :: cs => re.matchK pos (c :: cs) (fun _ _ => true) || re.searchFrom (pos + 1) cs

/-- Whether the text contains a match of the expression. -/
def Regexp.MatchString (re : Regexp) (s : String) : Bool :=
  re.searchFrom 0 s.data

end regexp

/-- The pattern both handlers compile: caret, eight digits, dollar. -/
def validate : regexp.Regexp :=
  .cat .beginText (.cat (.rep (.charRange '0' '9') 8) .endText)

/-! ## float64: IEEE-754 binary64 with round-to-nearest-even -/

namespace float64

/-- A float64 value. The constructor `finite neg m e` stands for the number
`(-1)^neg * m * 2^e`; the operations below return it in the canonical form of
the binary64 encoding (`m < 2^53`, `-1074 ≤ e ≤ 971`, and `2^52 ≤ m` unless
`e = -1074`), so that equality of values is equality of bit patterns. -/
inductive F64 where
  | finite (neg : Bool) (m : Nat) (e : Int)
  | inf (neg : Bool)
  | nan
deriving DecidableEq, Repr

/-- Number of binary digits of `n`, by halving at most `fuel` times. -/
def bitLenAux : Nat → Nat → Nat
  | 0, _ => 0
  | fuel + 1, n => if n = 0 then 0 else bitLenAux fuel (n / 2) + 1

/-- Number of binary digits of `n`. -/
def bitLen (n : Nat) : Nat := bitLenAux n n

/-- Final step of rounding: carry out of the significand and overflow. -/
def pack (neg : Bool) (m : Nat) (e : Int) : F64 :=
  if m = 2 ^ 53 then (if e + 1 > 971 then .inf neg else .finite neg (2 ^ 52) (e + 1))
  else if m ≥ 2 ^ 52 ∧ e > 971 then .inf neg
  else .finite neg m e

/-- The float64 nearest to the exact number `(-1)^neg * m * 2^e`, ties to the
even significand; gradual underflow, overflow to infinity. -/
def roundNearestEven (neg : Bool) (m : Nat) (e : Int) : F64 :=
  if m = 0 then .finite neg 0 (-1074) else
  let q : Int := max (e + (bitLen m : Int) - 53) (-1074)
  if q ≤ e then pack neg (m * 2 ^ (e - q).toNat) q
  else
    let k := (q - e).toNat
    let hi := m / 2 ^ k
    let lo := m % 2 ^ k
    let half := 2 ^ (k - 1)
    pack neg (if lo > half ∨ (lo = half ∧ hi % 2 = 1) then hi + 1 else hi) q

/-- Sum of two exact numbers, rounded once. An exact zero sum is positive
unless both terms are negative. -/
def addExact (s : Bool) (m : Nat) (e : Int) (t : Bool) (n : Nat) (f : Int) : F64 :=
  let g := min e f
  let a : Int :=
    if s then -((m * 2 ^ (e - g).toNat : Nat) : Int) else ((m * 2 ^ (e - g).toNat : Nat) : Int)
  let b : Int :=
    if t then -((n * 2 ^ (f - g).toNat : Nat) : Int) else ((n * 2 ^ (f - g).toNat : Nat) : Int)
  if a + b = 0 then .finite (s && t) 0 (-1074)
  else roundNearestEven (decide (a + b < 0)) (a + b).natAbs g

/-- Addition of float64 values. -/
def F64.add : F64 → F64 → F64
  | .nan, _ => .nan
  | _, .nan => .nan
  | .inf s, .inf t => if s = t then .inf s else .nan
  | .inf s, .finite _ _ _ => .inf s
  | .finite _ _ _, .inf t => .inf t
  | .finite s m e, .finite t n f => addExact s m e t n f

/-- Multiplication of float64 values. -/
def F64.mul : F64 → F64 → F64
  | .nan, _ => .nan
  | _, .nan => .nan
  | .inf s, .inf t => .inf (xor s t)
  | .inf s, .finite t n _ => if n = 0 then .nan else .inf (xor s t)
  | .finite s m _, .inf t => if m = 0 then .nan else .inf (xor s t)
  | .finite s m e, .finite t n f => roundNearestEven (xor s t) (m * n) (e + f)

/-- Fused multiply-add `x*y + z`: the product is not rounded. -/
def F64.fma : F64 → F64 → F64 → F64
  | .finite s m e, .finite t n f, .finite u p g => addExact (xor s t) (m * n) (e + f) u p g
  | x, y, z => (x.mul y).add z

/-- The expression `x*y + z` as a Go compiler may evaluate it: the language
lets an implementation fuse the two operations into one with a single
rounding. -/
def mulAdd (fused : Bool) (x y z : F64) : F64 :=
  if fused then x.fma y z else (x.mul y).add z

/-- Conversion of the exact constant `(-1)^neg * n / d` to float64, as for an
untyped constant of the program text or a decimal number of a document: the
quotient is cut after more than 64 binary digits with a sticky last digit,
then rounded. -/
def ofRat (neg : Bool) (n d : Nat) : F64 :=
  let k := 64 + bitLen d
  let q := n * 2 ^ k / d
  let sticky := if n * 2 ^ k % d = 0 then 0 else 1
  roundNearestEven neg (2 * q + sticky) (-((k : Int) + 1))

/-- Whether the value is a number (neither infinite nor NaN). -/
def F64.isFinite : F64 → Bool
  | .finite _ _ _ => true
  | _ => false

end float64

open float64 (F64)

/-- The type `Response`, declared with the same fields in both packages. -/
structure Response where
  TempC : F64
  TempF : F64
  TempK : F64
  City : String
deriving DecidableEq, Repr

/-! ## net/http: response writers and client responses -/

namespace http

/-- What a handler hands to the response body: literal text, or the document
`encoding/json` writes for a `Response` (followed by a newline). -/
inductive Chunk where
  | text (s : String)
  | json (r : Response)
deriving DecidableEq, Repr

/-- State of an `http.ResponseWriter` during one request. -/
structure ResponseWriter where
  /-- The header map `w.Header()` the handler edits. -/
  header : List (String × String)
  /-- Status line, fixed by the first `WriteHeader`; `none` while unsent. -/
  status : Option Nat
  /-- The headers as they were when the status line was sent. -/
  sent : List (String × String)
  /-- Body written so far. -/
  body : List Chunk
deriving DecidableEq, Repr

/-- A writer nothing has been written to. -/
def ResponseWriter.new : ResponseWriter := ⟨[], none, [], []⟩

/-- The call `w.WriteHeader(code)`: the first call sends the status line and the
header map; a later call is superfluous and changes nothing. -/
def ResponseWriter.WriteHeader (w : ResponseWriter) (code : Nat) : ResponseWriter :=
  match w.status with
  | some _ => w
  | none => { w with status := some code, sent := w.header }

/-- The call `w.Write(b)`: it sends status 200 first when no status was sent yet. -/
def ResponseWriter.Write (w : ResponseWriter) (c : Chunk) : ResponseWriter :=
  let w1 := w.WriteHeader 200
  { w1 with body := w1.body ++ [c] }

/-- The call `w.Header().Set(key, value)`. -/
def ResponseWriter.HeaderSet (w : ResponseWriter) (key value : String) : ResponseWriter :=
  { w with header := (key, value) :: w.header.filter (fun kv => kv.1 != key) }

/-- The call `json.NewEncoder(w).Encode(v)` for a non-nil `*Response`: the document is
written in one `Write`; a field that is not a number makes the encoder fail
with an unsupported-value error before anything is written. -/
def ResponseWriter.Encode (w : ResponseWriter) (r : Response) : ResponseWriter :=
  if r.TempC.isFinite && r.TempF.isFinite && r.TempK.isFinite then w.Write (.json r) else w

/-- Status the client receives: 200 when the handler never sent one. -/
def ResponseWriter.StatusCode (w : ResponseWriter) : Nat := w.status.getD 200

/-- What a client call returns when it does not fail: the status code and
the outcome of `io.ReadAll` on the body. -/
structure ClientResponse where
  StatusCode : Nat
  Body : Except String String

def StatusOK : Nat := 200
def StatusBadRequest : Nat := 400
def StatusNotFound : Nat := 404
def StatusUnprocessableEntity : Nat := 422
def StatusInternalServerError : Nat := 500

end http

/-! ## net/url: query escaping -/

namespace url

/-- UTF-8 encoding of one code point, as bytes. -/
def utf8EncodeChar (c : Char) : List Nat :=
  let n := c.toNat
  if n < 0x80 then [n]
  else if n < 0x800 then [0xC0 + n / 64, 0x80 + n % 64]
  else if n < 0x10000 then [0xE0 + n / 4096, 0x80 + n / 64 % 64, 0x80 + n % 64]
  else [0xF0 + n / 262144, 0x80 + n / 4096 % 64, 0x80 + n / 64 % 64, 0x80 + n % 64]

/-- The bytes of a Go string holding the given text. -/
def utf8 : List Char → List Nat
  | [] => []
  | c :: cs => utf8EncodeChar c ++ utf8 cs

/-- The function `shouldEscape` in mode `encodeQueryComponent`: letters, digits and the four
unreserved marks are kept, every other byte is escaped. -/
def shouldEscape (c : Nat) : Bool :=
  if (97 ≤ c ∧ c ≤ 122) ∨ (65 ≤ c ∧ c ≤ 90) ∨ (48 ≤ c ∧ c ≤ 57) then false
  else if c = 45 ∨ c = 95 ∨ c = 46 ∨ c = 126 then false
  else true

/-- Digit `n` of the table `upperhex`. -/
def upperhex (n : Nat) : Nat :=
  if n < 10 then 48 + n else 55 + n

/-- Bytes `escape` writes for one byte of its argument. -/
def escapeByte (c : Nat) : List Nat :=
  if c = 32 then [43]
  else if shouldEscape c then [37, upperhex (c / 16), upperhex (c % 16)]
  else [c]

/-- The function `escape` in mode `encodeQueryComponent`, on the bytes of `s`. -/
def escape : List Nat → List Nat
  | [] => []
  | c :: cs => escapeByte c ++ escape cs

/-- The function `url.QueryEscape`: the result has only ASCII bytes, one character each. -/
def QueryEscape (s : String) : String :=
  String.mk ((escape (utf8 s.data)).map Char.ofNat)

/-- The function `ishex` of the package. -/
def ishex (c : Nat) : Bool :=
  (48 ≤ c ∧ c ≤ 57) ∨ (97 ≤ c ∧ c ≤ 102) ∨ (65 ≤ c ∧ c ≤ 70)

/-- The function `unhex` of the package. -/
def unhex (c : Nat) : Nat :=
  if 48 ≤ c ∧ c ≤ 57 then c - 48
  else if 97 ≤ c ∧ c ≤ 102 then c - 97 + 10
  else if 65 ≤ c ∧ c ≤ 70 then c - 65 + 10
  else 0

/-- The function `unescape` in mode `encodeQueryComponent`, on bytes: a percent sign needs two
hexadecimal digits after it, a plus sign is a space. The error is the
`EscapeError` of the first malformed escape: the at most three bytes from its
percent sign on. -/
def unescape : List Nat → Except (List Nat) (List Nat)
  | [] => .ok []
  | 37 :: a :: b :: rest =>
    if ishex a && ishex b then
      match unescape rest with
      | .ok t => .ok ((unhex a * 16 + unhex b) :: t)
      | .error e => .error e
    else .error [37, a, b]
  | [37, a] => .error [37, a]
  | [37] => .error [37]
  | c :: rest =>
    match unescape rest with
    | .ok t => .ok ((if c = 43 then 32 else c) :: t)
    | .error e => .error e

/-- The function `url.QueryUnescape`, returning the bytes of the decoded string. -/
def QueryUnescape (s : String) : Except (List Nat) (List Nat) :=
  unescape (utf8 s.data)

/-- The method `Error` of `*url.Error`: the operation, the quoted address and
the text of the cause, as `"%s %q: %s"` formats them. -/
def errorText (Quote : String → String) (Op URL Err : String) : String :=
  Op ++ " " ++ Quote URL ++ ": " ++ Err

end url

/-! ## unicode, norm: general categories and canonical normalisation -/

namespace norm

/-- What `transCidade` uses of `golang.org/x/text/unicode/norm` and of
package `unicode`: the two normal forms as functions on text, and the range
tables of the nonspacing marks (`unicode.Mn`) and of all marks (`unicode.M`).
Neither package belongs to the repository, so they are taken as given. -/
structure Library where
  NFD : List Char → List Char
  NFC : List Char → List Char
  Mn : Char → Bool
  M : Char → Bool

/-- The properties of the Unicode Character Database that canonical
normalisation reads. -/
structure Tables where
  /-- Full canonical decomposition of a code point, itself when it has none. -/
  decomposition : Char → List Char
  /-- Canonical combining class. -/
  ccc : Char → Nat
  /-- Primary composite of a pair, if there is one. -/
  composite : Char → Char → Option Char
  /-- General category Mn. -/
  Mn : Char → Bool
  /-- General category M (Mn, Mc or Me). -/
  M : Char → Bool

/-- Replace every code point by its canonical decomposition. -/
def decompose (T : Tables) : List Char → List Char
  | [] => []
  | c :: cs => T.decomposition c ++ decompose T cs

/-- Put `c` into a buffer held last code point first: a non-starter moves
in front of the code points of a higher combining class before it. -/
def place (T : Tables) (c : Char) : List Char → List Char
  | [] => [c]
  | d :: ds => if T.ccc c ≠ 0 ∧ T.ccc c < T.ccc d then d :: place T c ds else c :: d :: ds

/-- Canonical ordering of decomposed text. -/
def reorder (T : Tables) (s : List Char) : List Char :=
  (s.foldl (fun acc c => place T c acc) []).reverse

/-- State of canonical composition: the finished output, the last starter
and the code points kept after it, the last two held last code point first. -/
structure Composing where
  done : List Char
  starter : Option Char
  marks : List Char

/-- Output of a composition state. -/
def Composing.flush (st : Composing) : List Char :=
  match st.starter with
  | none => st.marks ++ st.done
  | some s => st.marks ++ s :: st.done

/-- One step of canonical composition: `c` combines with the last starter
when it is not blocked from it and the pair has a primary composite. -/
def composeStep (T : Tables) (st : Composing) (c : Char) : Composing :=
  match st.starter with
  | none =>
    if T.ccc c = 0 then { st with starter := some c } else { st with done := c :: st.done }
  | some s =>
    let blocked : Bool :=
      match st.marks with
      | [] => false
      | b :: _ => decide (T.ccc c ≤ T.ccc b)
    match (if blocked then none else T.composite s c) with
    | some p => { st with starter := some p }
    | none =>
      if T.ccc c = 0 then ⟨st.flush, some c, []⟩ else { st with marks := c :: st.marks }

/-- Canonical composition of canonically ordered decomposed text. -/
def compose (T : Tables) (s : List Char) : List Char :=
  (s.foldl (composeStep T) ⟨[], none, []⟩).flush.reverse

/-- Normal forms D and C as Unicode Standard Annex 15 defines them, over
given tables. -/
def uax15 (T : Tables) : Library where
  NFD := fun s => reorder T (decompose T s)
  NFC := fun s => compose T (reorder T (decompose T s))
  Mn := T.Mn
  M := T.M

/-- The canonical decompositions of the Latin-1 Supplement block (Unicode
Character Database, UnicodeData.txt): code point, base letter, mark. -/
def latin1 : List (Nat × Nat × Nat) :=
  [(0x00C0, 0x0041, 0x0300), (0x00C1, 0x0041, 0x0301), (0x00C2, 0x0041, 0x0302),
   (0x00C3, 0x0041, 0x0303), (0x00C4, 0x0041, 0x0308), (0x00C5, 0x0041, 0x030A),
   (0x00C7, 0x0043, 0x0327), (0x00C8, 0x0045, 0x0300), (0x00C9, 0x0045, 0x0301),
   (0x00CA, 0x0045, 0x0302), (0x00CB, 0x0045, 0x0308), (0x00CC, 0x0049, 0x0300),
   (0x00CD, 0x0049, 0x0301), (0x00CE, 0x0049, 0x0302), (0x00CF, 0x0049, 0x0308),
   (0x00D1, 0x004E, 0x0303), (0x00D2, 0x004F, 0x0300), (0x00D3, 0x004F, 0x0301),
   (0x00D4, 0x004F, 0x0302), (0x00D5, 0x004F, 0x0303), (0x00D6, 0x004F, 0x0308),
   (0x00D9, 0x0055, 0x0300), (0x00DA, 0x0055, 0x0301), (0x00DB, 0x0055, 0x0302),
   (0x00DC, 0x0055, 0x0308), (0x00DD, 0x0059, 0x0301), (0x00E0, 0x0061, 0x0300),
   (0x00E1, 0x0061, 0x0301), (0x00E2, 0x0061, 0x0302), (0x00E3, 0x0061, 0x0303),
   (0x00E4, 0x0061, 0x0308), (0x00E5, 0x0061, 0x030A), (0x00E7, 0x0063, 0x0327),
   (0x00E8, 0x0065, 0x0300), (0x00E9, 0x0065, 0x0301), (0x00EA, 0x0065, 0x0302),
   (0x00EB, 0x0065, 0x0308), (0x00EC, 0x0069, 0x0300), (0x00ED, 0x0069, 0x0301),
   (0x00EE, 0x0069, 0x0302), (0x00EF, 0x0069, 0x0308), (0x00F1, 0x006E, 0x0303),
   (0x00F2, 0x006F, 0x0300), (0x00F3, 0x006F, 0x0301), (0x00F4, 0x006F, 0x0302),
   (0x00F5, 0x006F, 0x0303), (0x00F6, 0x006F, 0x0308), (0x00F9, 0x0075, 0x0300),
   (0x00FA, 0x0075, 0x0301), (0x00FB, 0x0075, 0x0302), (0x00FC, 0x0075, 0x0308),
   (0x00FD, 0x0079, 0x0301), (0x00FF, 0x0079, 0x0308)]

/-- The combining marks of the Latin-1 decompositions: grave, acute,
circumflex, tilde, diaeresis, ring above (class 230) and cedilla (class 202);
all of general category Mn. -/
def latin1Marks : List Nat := [0x0300, 0x0301, 0x0302, 0x0303, 0x0308, 0x030A, 0x0327]

/-- An excerpt of the Unicode Character Database: Basic Latin, the Latin-1
Supplement, the seven marks its letters decompose into, and U+20DD COMBINING
ENCLOSING CIRCLE (category Me, class 0, no decomposition). The values are the
database's for text made of these code points whose composites stay among
them; elsewhere the excerpt gives defaults that are not the database's. -/
def ucd : Tables where
  decomposition := fun c =>
    match latin1.find? (fun r => r.1 == c.toNat) with
    | some r => [Char.ofNat r.2.1, Char.ofNat r.2.2]
    | none => [c]
  ccc := fun c =>
    if c.toNat = 0x0327 then 202 else if latin1Marks.contains c.toNat then 230 else 0
  composite := fun a b =>
    match latin1.find? (fun r => r.2.1 == a.toNat && r.2.2 == b.toNat) with
    | some r => some (Char.ofNat r.1)
    | none => none
  Mn := fun c => latin1Marks.contains c.toNat
  M := fun c => latin1Marks.contains c.toNat || c.toNat == 0x20DD

end norm

/-! ## temperaturacep: the Resolver (src/temperaturacep/main.go) -/

namespace temperaturacep

/-- The type `ViaCep`: the directory's answer. -/
structure ViaCep where
  Localidade : String
  Erro : Bool
deriving DecidableEq, Repr

/-- The anonymous struct of field `Current` of `WeatherApi`. -/
structure Current where
  TempC : F64
  TempF : F64
  TempK : F64
deriving DecidableEq, Repr

/-- The type `WeatherApi`: the weather provider's answer. -/
structure WeatherApi where
  Current : Current
deriving DecidableEq, Repr

/-- The world outside the Resolver during one request. -/
structure Env where
  /-- The call `http.Get(url)`: a transport error or a response. -/
  Get : String → Except String http.ClientResponse
  /-- The call `json.Unmarshal(res, &data)` for `data` of type `ViaCep`. -/
  UnmarshalViaCep : String → Except String ViaCep
  /-- The call `json.Unmarshal(res, &data)` for `data` of type `WeatherApi`. -/
  UnmarshalWeatherApi : String → Except String WeatherApi
  /-- The normalisation and category tables linked into the program. -/
  unicode : norm.Library
  /-- Whether the compiler fuses `x*y + z`. -/
  fused : Bool

/-- What the Resolver does that the claims observe, in order. -/
inductive Event where
  | EncontraCep (cep : String)
  | EncontraTemperatura (city : String)
  | Get (url : String)
deriving DecidableEq, Repr

/-- The function `isMn`. -/
def isMn (lib : norm.Library) (r : Char) : Bool := lib.Mn r

/-- The function `transCidade`: the chain NFD, removal of the code points
`isMn` accepts, NFC; then `url.QueryEscape`. -/
def transCidade (lib : norm.Library) (s : String) : String :=
  let result := String.mk (lib.NFC ((lib.NFD s.data).filter (fun r => !isMn lib r)))
  url.QueryEscape result

/-- Address `EncontraCep` requests. -/
def urlViaCep (cep : String) : String := "http://viacep.com.br/ws/" ++ cep ++ "/json/"

/-- The function `EncontraCep`, with the events it causes. -/
def EncontraCep (env : Env) (cep : String) : Except String ViaCep × List Event :=
  let events := [Event.EncontraCep cep, Event.Get (urlViaCep cep)]
  match env.Get (urlViaCep cep) with
  | .error err => (.error err, events)
  | .ok req =>
    match req.Body with
    | .error err => (.error err, events)
    | .ok res =>
      match env.UnmarshalViaCep res with
      | .error err => (.error err, events)
      | .ok data => (.ok data, events)

/-- Address `EncontraTemperatura` requests. -/
def urlWeatherApi (lib : norm.Library) (city : String) : String :=
  "http://api.weatherapi.com/v1/current.json?key=12969ce544064451ab2103040240905&aqi=no&q="
    ++ transCidade lib city

/-- The function `EncontraTemperatura`, with the events it causes. -/
def EncontraTemperatura (env : Env) (city : String) : Except String Response × List Event :=
  let events := [Event.EncontraTemperatura city, Event.Get (urlWeatherApi env.unicode city)]
  match env.Get (urlWeatherApi env.unicode city) with
  | .error err => (.error err, events)
  | .ok req =>
    match req.Body with
    | .error err => (.error err, events)
    | .ok res =>
      match env.UnmarshalWeatherApi res with
      | .error err => (.error err, events)
      | .ok data =>
        let tempF := float64.mulAdd env.fused data.Current.TempC (float64.ofRat false 9 5)
          (float64.ofRat false 32 1)
        let tempK := data.Current.TempC.add (float64.ofRat false 273 1)
        (.ok { City := city, TempC := data.Current.TempC, TempF := tempF, TempK := tempK },
          events)

/-- An incoming request: the path and the query parameters of its URL. -/
structure Request where
  Path : String
  Query : List (String × String)

/-- The call `r.URL.Query().Get(key)`: the first value of the key, or the empty string. -/
def Request.QueryGet (r : Request) (key : String) : String :=
  match r.Query.find? (fun kv => kv.1 == key) with
  | some kv => kv.2
  | none => ""

/-- What handling a request leaves: the response and the events. -/
structure Handled where
  w : http.ResponseWriter
  events : List Event

/-- The function `ProcuraCepHandler` of the Resolver. -/
def ProcuraCepHandler (env : Env) (r : Request) : Handled :=
  let w := http.ResponseWriter.new
  if r.Path ≠ "/" then ⟨w.WriteHeader http.StatusNotFound, []⟩
  else
    let cepParam := r.QueryGet "cep"
    if !validate.MatchString cepParam then
      ⟨(w.WriteHeader http.StatusUnprocessableEntity).Write (.text "CEP inválido"), []⟩
    else
      match EncontraCep env cepParam with
      | (.error err, ev) =>
        ⟨(w.WriteHeader http.StatusInternalServerError).Write
          (.text ("erro ao pesquisar CEP: " ++ err)), ev⟩
      | (.ok cep, ev) =>
        if cep.Erro then
          ⟨(w.WriteHeader http.StatusNotFound).Write (.text "CEP não encontrado"), ev⟩
        else
          let w1 := (w.HeaderSet "Content-Type" "application/json").WriteHeader http.StatusOK
          match EncontraTemperatura env cep.Localidade with
          | (.error err, ev2) =>
            ⟨(w1.WriteHeader http.StatusInternalServerError).Write
              (.text ("erro ao procurar temperatura: " ++ err)), ev ++ ev2⟩
          | (.ok weather, ev2) => ⟨w1.Encode weather, ev ++ ev2⟩

end temperaturacep

/-! ## recebeCep: the Gateway (src/recebeCep/main.go) -/

namespace recebeCep

/-- The world outside the Gateway during one request. -/
structure Env where
  /-- The function `strconv.Quote`, which the verb `%q` applies. -/
  Quote : String → String
  /-- The cause `url.Parse` reports inside
  `http.NewRequestWithContext(ctx, "GET", url, nil)` when the address does not
  parse; with the method GET and the context of the incoming request the
  function has no other error. -/
  NewRequest : String → Option String
  /-- The call `http.DefaultClient.Do(req)`: the cause of a failure, or a
  response. -/
  Do : String → Except String http.ClientResponse
  /-- The call `json.Unmarshal(res, &data)` for `data` of type `Response`. -/
  Unmarshal : String → Except String Response

/-- What the Gateway does that the claims observe, in order. -/
inductive Event where
  | TemperaturaCep (cep : String)
  | Do (url : String)
deriving DecidableEq, Repr

/-- What `json.Unmarshal(body, &paramCep)` makes of a request body: the
string the document gives field `cep`, when it gives one (a document without
the key leaves the field as it was), and the error returned, if any. -/
structure Document where
  cep : Option String
  err : Option String

/-- An incoming request: the path, and the outcome of `io.ReadAll(r.Body)`
with the body seen through the decoder. -/
structure Request where
  Path : String
  Body : Except String Document

/-- The stores other requests' handlers make to the package-level variable
`paramCep` while this handler runs (the server runs every handler on a
goroutine of its own): the last value stored, if any, between this handler's
`json.Unmarshal` on line 58 and its read on line 65, between that read and
the one on line 72, and between that one and the read on line 78. Each
access is taken as one step of an interleaving. -/
structure Others where
  beforeEmptyTest : Option String
  beforeValidate : Option String
  beforeCall : Option String

/-- No other request writes the variable while this one is handled. -/
def Others.quiet : Others := ⟨none, none, none⟩

/-- The value `paramCep.Cep == ""` reads on line 65, `stored` being what
the variable held after this handler's own `json.Unmarshal`. -/
def Others.read65 (others : Others) (stored : String) : String :=
  others.beforeEmptyTest.getD stored

/-- The value `validate.MatchString(paramCep.Cep)` reads on line 72. -/
def Others.read72 (others : Others) (stored : String) : String :=
  others.beforeValidate.getD (others.read65 stored)

/-- The value `TemperaturaCep(paramCep.Cep, ...)` reads on line 78. -/
def Others.read78 (others : Others) (stored : String) : String :=
  others.beforeCall.getD (others.read72 stored)

/-- What handling a request leaves: the package-level variable `paramCep`
as of the handler's last access, the response and the events. -/
structure Handled where
  paramCep : String
  w : http.ResponseWriter
  events : List Event

/-- Text of the error `TemperaturaCep` returns on a 404 from the Resolver. -/
def notFound : String := "não foi possível encontrar o CEP"

/-- Address `TemperaturaCep` requests. -/
def urlTemperaturaCep (cep : String) : String := "http://temperaturaCep:8081/?cep=" ++ cep

/-- The function `TemperaturaCep`, with the events it causes: the pointer
returned (never nil without an error) and the text of the error. A failure
of `http.NewRequestWithContext` or of `http.DefaultClient.Do` is a
`*url.Error`, of operation `parse` and `Get`. -/
def TemperaturaCep (env : Env) (cep : String) : Except String (Option Response) × List Event :=
  match env.NewRequest (urlTemperaturaCep cep) with
  | some cause =>
    (.error (url.errorText env.Quote "parse" (urlTemperaturaCep cep) cause),
      [Event.TemperaturaCep cep])
  | none =>
    let events := [Event.TemperaturaCep cep, Event.Do (urlTemperaturaCep cep)]
    match env.Do (urlTemperaturaCep cep) with
    | .error cause =>
      (.error (url.errorText env.Quote "Get" (urlTemperaturaCep cep) cause), events)
    | .ok resp =>
      if resp.StatusCode = http.StatusNotFound then (.error notFound, events)
      else
        match resp.Body with
        | .error err => (.error err, events)
        | .ok res =>
          match env.Unmarshal res with
          | .error err => (.error err, events)
          | .ok data => (.ok (some data), events)

/-- The function `ProcuraCepHandler` of the Gateway. `paramCep` is the value
the package-level variable has when the request's body is decoded into it;
the variable is read again at each of the lines 65, 72 and 78, after the
stores of `others`. -/
def ProcuraCepHandler (env : Env) (paramCep : String) (r : Request) (others : Others) :
    Handled :=
  let w := http.ResponseWriter.new
  if r.Path ≠ "/" then ⟨paramCep, w.WriteHeader http.StatusNotFound, []⟩
  else
    match r.Body with
    | .error _ =>
      ⟨paramCep, (w.WriteHeader http.StatusInternalServerError).Write
        (.text "erro ao ler requisição"), []⟩
    | .ok doc =>
      let stored := doc.cep.getD paramCep
      match doc.err with
      | some _ =>
        ⟨stored, (w.WriteHeader http.StatusBadRequest).Write (.text "erro na requisição"), []⟩
      | none =>
        if others.read65 stored = "" then
          ⟨others.read65 stored, (w.WriteHeader http.StatusBadRequest).Write
            (.text "o parâmetro cep é obrigatório"), []⟩
        else if !validate.MatchString (others.read72 stored) then
          ⟨others.read72 stored, (w.WriteHeader http.StatusUnprocessableEntity).Write
            (.text "cep inválido"), []⟩
        else
          match TemperaturaCep env (others.read78 stored) with
          | (.error errorStr, ev) =>
            if errorStr = notFound then
              ⟨others.read78 stored,
                (w.WriteHeader http.StatusNotFound).Write (.text errorStr), ev⟩
            else
              ⟨others.read78 stored, (w.WriteHeader http.StatusInternalServerError).Write
                (.text ("erro ao buscar o CEP: " ++ errorStr)), ev⟩
          | (.ok temperature, ev) =>
            let w1 := w.HeaderSet "Content-Type" "application/json"
            match temperature with
            | some t => ⟨others.read78 stored, (w1.WriteHeader http.StatusOK).Encode t, ev⟩
            | none =>
              ⟨others.read78 stored, (w1.WriteHeader http.StatusNotFound).Write
                (.text "não foi possível encontrar a temperatura"), ev⟩

/-- The value of `paramCep` after the Gateway handled the requests one at a
time, in order, starting from `paramCep`. -/
def after (env : Env) (paramCep : String) : List Request → String
  | [] => paramCep
  | r :: rs => after env (ProcuraCepHandler env paramCep r Others.quiet).paramCep rs

/-- The Gateway handling `r` after `before`, one request at a time, from a
fresh process (the variable starts as the empty string). -/
def serve (env : Env) (before : List Request) (r : Request) : Handled :=
  ProcuraCepHandler env (after env "" before) r Others.quiet

end recebeCep

/-! ## The properties as the specification words them, and sample worlds -/

/-- The check as the specification words it: exactly eight characters, each
an ASCII decimal digit. -/
def eightDigits (s : String) : Prop :=
  s.length = 8 ∧ ∀ c ∈ s.data, '0' ≤ c ∧ c ≤ '9'

/-- A byte the query escaping leaves as it is: an ASCII letter or digit, or
one of hyphen, underscore, full stop and tilde. -/
def unreservedChar (c : Char) : Prop :=
  ('a' ≤ c ∧ c ≤ 'z') ∨ ('A' ≤ c ∧ c ≤ 'Z') ∨ ('0' ≤ c ∧ c ≤ '9') ∨
    c = '-' ∨ c = '_' ∨ c = '.' ∨ c = '~'

/-- The text the specification describes for `transCidade` before escaping:
NFC of NFD with every combining mark (general category M) removed. -/
def stripAllMarks (lib : norm.Library) (s : String) : List Char :=
  lib.NFC ((lib.NFD s.data).filter (fun r => !lib.M r))

/-- The text with only the nonspacing marks (general category Mn) removed. -/
def stripNonspacingMarks (lib : norm.Library) (s : String) : List Char :=
  lib.NFC ((lib.NFD s.data).filter (fun r => !lib.Mn r))

/-- A library that leaves ASCII text alone: both normal forms return it
unchanged and no ASCII code point is a nonspacing mark. -/
def norm.Library.ASCIIInert (lib : norm.Library) : Prop :=
  (∀ s : List Char, (∀ c ∈ s, c.toNat < 128) → lib.NFD s = s ∧ lib.NFC s = s) ∧
    ∀ c : Char, c.toNat < 128 → lib.Mn c = false

/-- The downstream call of the Gateway for `cep` fails with error text `e`:
in building the request, in transport, or, for a response other than 404, in
reading the body or in decoding it. -/
def recebeCep.Fails (env : recebeCep.Env) (cep e : String) : Prop :=
  (∃ cause, env.NewRequest (recebeCep.urlTemperaturaCep cep) = some cause ∧
    e = url.errorText env.Quote "parse" (recebeCep.urlTemperaturaCep cep) cause) ∨
    (env.NewRequest (recebeCep.urlTemperaturaCep cep) = none ∧
      ((∃ cause, env.Do (recebeCep.urlTemperaturaCep cep) = .error cause ∧
          e = url.errorText env.Quote "Get" (recebeCep.urlTemperaturaCep cep) cause) ∨
        ∃ resp, env.Do (recebeCep.urlTemperaturaCep cep) = .ok resp ∧
          resp.StatusCode ≠ http.StatusNotFound ∧
          (resp.Body = .error e ∨
            ∃ res, resp.Body = .ok res ∧ env.Unmarshal res = .error e)))

/-- The errors of reading a body (`io`, `net/http`) and of decoding it
(`encoding/json`) never have the Gateway's own not-found message as text:
a property of packages outside the repository, none of which holds that
message. -/
def recebeCep.Env.LibraryTexts (env : recebeCep.Env) : Prop :=
  (∀ (u : String) (resp : http.ClientResponse) (e : String),
    env.Do u = .ok resp → resp.Body = .error e → e ≠ recebeCep.notFound) ∧
    ∀ res e : String, env.Unmarshal res = .error e → e ≠ recebeCep.notFound

/-- A world of the Gateway in which requests can be built, every client call
has the given outcome and every body decodes to the given result; the
addresses quoted need no escapes. -/
def recebeCep.world (resp : Except String http.ClientResponse)
    (decoded : Except String Response) : recebeCep.Env where
  Quote := fun s => "\"" ++ s ++ "\""
  NewRequest := fun _ => none
  Do := fun _ => resp
  Unmarshal := fun _ => decoded

/-- A request to the Gateway at the root path whose body decodes without
error and gives field `cep` the value `cep`, or has no such key. -/
def recebeCep.post (cep : Option String) : recebeCep.Request :=
  ⟨"/", .ok ⟨cep, none⟩⟩

/-- A world of the Resolver in which every `http.Get` returns a readable
body, the directory's body decodes to `directory` and the weather
provider's to `weather`; the tables are the excerpt `norm.ucd`. -/
def temperaturacep.world (directory : Except String temperaturacep.ViaCep)
    (weather : Except String temperaturacep.WeatherApi) (fused : Bool) :
    temperaturacep.Env where
  Get := fun _ => .ok ⟨200, .ok ""⟩
  UnmarshalViaCep := fun _ => directory
  UnmarshalWeatherApi := fun _ => weather
  unicode := norm.uax15 norm.ucd
  fused := fused

/-- A request to the Resolver at the root path with the given `cep`. -/
def temperaturacep.get (cep : String) : temperaturacep.Request :=
  ⟨"/", [("cep", cep)]⟩

/-- A weather document with the given Celsius reading and no other field. -/
def temperaturacep.reading (c : F64) : temperaturacep.WeatherApi :=
  ⟨⟨c, .finite false 0 (-1074), .finite false 0 (-1074)⟩⟩

/-- Tables in which the ASCII code points are starters without
decomposition, none is a nonspacing mark and no two of them compose. -/
def norm.Tables.ASCIIStarters (T : norm.Tables) : Prop :=
  ∀ c : Char, c.toNat < 128 →
    T.decomposition c = [c] ∧ T.ccc c = 0 ∧ T.Mn c = false ∧
      ∀ d : Char, d.toNat < 128 → T.composite c d = none

/-! ## The postal-code check -/

namespace regexp

theorem iterate_charRange (lo hi : Char) (k : Nat → List Char → Bool) :
    ∀ (n pos : Nat) (inp : List Char),
      iterate (Regexp.matchK (.charRange lo hi)) n pos inp k = true ↔
        n ≤ inp.length ∧ (∀ c ∈ inp.take n, lo ≤ c ∧ c ≤ hi) ∧
          k (pos + n) (inp.drop n) = true := by
  intro n
  induction n with
  | zero => intro pos inp; simp [iterate]
  | succ n ih =>
    intro pos inp
    cases inp with
    | nil => simp [iterate, Regexp.matchK]
    | cons c cs =>
      simp only [iterate, Regexp.matchK, Bool.and_eq_true, decide_eq_true_eq, ih,
        List.length_cons, List.take_succ_cons, List.drop_succ_cons, List.mem_cons,
        forall_eq_or_imp, Nat.add_le_add_iff_right]
      have h : pos + 1 + n = pos + (n + 1) := by omega
      rw [h]
      tauto

theorem searchFrom_beginText_succ (r : Regexp) :
    ∀ (inp : List Char) (pos : Nat),
      (Regexp.cat .beginText r).searchFrom (pos + 1) inp = false := by
  intro inp
  induction inp with
  | nil => intro pos; simp [Regexp.searchFrom, Regexp.matchK]
  | cons c cs ih => intro pos; simp [Regexp.searchFrom, Regexp.matchK, ih]

end regexp

theorem validate_matchK_zero (inp : List Char) :
    validate.matchK 0 inp (fun _ _ => true) = true ↔
      inp.length = 8 ∧ ∀ c ∈ inp, '0' ≤ c ∧ c ≤ '9' := by
  simp only [validate, regexp.Regexp.matchK, regexp.iterate_charRange, beq_self_eq_true,
    Bool.true_and, Bool.and_true, List.isEmpty_iff, List.drop_eq_nil_iff]
  constructor
  · rintro ⟨h1, h2, h3⟩
    have h : inp.length = 8 := by omega
    refine ⟨h, ?_⟩
    rwa [List.take_of_length_le (by omega)] at h2
  · rintro ⟨h1, h2⟩
    refine ⟨by omega, ?_, by omega⟩
    rwa [List.take_of_length_le (by omega)]

theorem validate_iff (s : String) : validate.MatchString s = true ↔ eightDigits s := by
  unfold regexp.Regexp.MatchString eightDigits
  rw [String.length]
  cases h : s.data with
  | nil =>
    rw [regexp.Regexp.searchFrom, validate_matchK_zero]
  | cons c cs =>
    rw [regexp.Regexp.searchFrom, Bool.or_eq_true, validate_matchK_zero]
    have h0 : validate.searchFrom (0 + 1) cs = false :=
      regexp.searchFrom_beginText_succ _ cs 0
    rw [h0]
    simp

theorem validate_false_of_not (s : String) (h : ¬ eightDigits s) :
    validate.MatchString s = false := by
  cases hm : validate.MatchString s with
  | false => rfl
  | true => exact absurd ((validate_iff s).mp hm) h

theorem not_eightDigits_empty : ¬ eightDigits "" := by
  intro h
  have h1 := h.1
  simp at h1

/-- C1 (amended): the pattern accepts a string exactly when it has eight
characters, all ASCII decimal digits; for every other string the Resolver
answers 422 without any lookup, and the Gateway answers 422 unless the
string is empty, which its earlier test for a missing parameter answers
with 400. For the Gateway the strings are the ones its two tests read. -/
theorem postal_code_check (envR : temperaturacep.Env) (envG : recebeCep.Env) :
    (∀ s : String, validate.MatchString s = true ↔ eightDigits s) ∧
    (∀ r : temperaturacep.Request, r.Path = "/" → ¬ eightDigits (r.QueryGet "cep") →
      (temperaturacep.ProcuraCepHandler envR r).w.StatusCode = 422 ∧
        (temperaturacep.ProcuraCepHandler envR r).events = []) ∧
    (∀ (paramCep : String) (r : recebeCep.Request) (doc : recebeCep.Document)
      (others : recebeCep.Others),
      r.Path = "/" → r.Body = .ok doc → doc.err = none →
      (others.read65 (doc.cep.getD paramCep) = "" →
        (recebeCep.ProcuraCepHandler envG paramCep r others).w.StatusCode = 400 ∧
          (recebeCep.ProcuraCepHandler envG paramCep r others).events = []) ∧
      (others.read65 (doc.cep.getD paramCep) ≠ "" →
        ¬ eightDigits (others.read72 (doc.cep.getD paramCep)) →
        (recebeCep.ProcuraCepHandler envG paramCep r others).w.StatusCode = 422 ∧
          (recebeCep.ProcuraCepHandler envG paramCep r others).events = [])) ∧
    (∀ (paramCep : String) (r : recebeCep.Request) (doc : recebeCep.Document),
      r.Path = "/" → r.Body = .ok doc → doc.err = none →
      ¬ eightDigits (doc.cep.getD paramCep) →
      (recebeCep.ProcuraCepHandler envG paramCep r recebeCep.Others.quiet).w.StatusCode =
          (if doc.cep.getD paramCep = "" then 400 else 422) ∧
        (recebeCep.ProcuraCepHandler envG paramCep r recebeCep.Others.quiet).events = []) := by
  have h3 : ∀ (paramCep : String) (r : recebeCep.Request) (doc : recebeCep.Document)
      (others : recebeCep.Others),
      r.Path = "/" → r.Body = .ok doc → doc.err = none →
      (others.read65 (doc.cep.getD paramCep) = "" →
        (recebeCep.ProcuraCepHandler envG paramCep r others).w.StatusCode = 400 ∧
          (recebeCep.ProcuraCepHandler envG paramCep r others).events = []) ∧
      (others.read65 (doc.cep.getD paramCep) ≠ "" →
        ¬ eightDigits (others.read72 (doc.cep.getD paramCep)) →
        (recebeCep.ProcuraCepHandler envG paramCep r others).w.StatusCode = 422 ∧
          (recebeCep.ProcuraCepHandler envG paramCep r others).events = []) := by
    intro p r doc others hp hb he
    constructor
    · intro hc
      simp [recebeCep.ProcuraCepHandler, hp, hb, he, hc, http.ResponseWriter.StatusCode,
        http.ResponseWriter.Write, http.ResponseWriter.WriteHeader, http.ResponseWriter.new,
        http.StatusBadRequest]
    · intro hc hd
      have hv := validate_false_of_not _ hd
      simp [recebeCep.ProcuraCepHandler, hp, hb, he, hc, hv, http.ResponseWriter.StatusCode,
        http.ResponseWriter.Write, http.ResponseWriter.WriteHeader, http.ResponseWriter.new,
        http.StatusUnprocessableEntity]
  refine ⟨validate_iff, ?_, h3, ?_⟩
  · intro r hp hd
    have hv := validate_false_of_not _ hd
    simp [temperaturacep.ProcuraCepHandler, hp, hv, http.ResponseWriter.StatusCode,
      http.ResponseWriter.Write, http.ResponseWriter.WriteHeader, http.ResponseWriter.new,
      http.StatusUnprocessableEntity]
  · intro p r doc hp hb he hd
    have h := h3 p r doc recebeCep.Others.quiet hp hb he
    by_cases hc : doc.cep.getD p = ""
    · rw [if_pos hc]
      exact h.1 hc
    · rw [if_neg hc]
      exact h.2 hc hd

/-- C1 (counterexample): the empty string is not eight digits, yet the
Gateway answers a request whose cep is empty with 400, not 422. -/
theorem gateway_empty_cep_not_422 :
    ¬ eightDigits "" ∧
      (recebeCep.ProcuraCepHandler (recebeCep.world (.error "offline") (.error "offline")) ""
        (recebeCep.post (some "")) recebeCep.Others.quiet).w.StatusCode = 400 ∧
      (recebeCep.ProcuraCepHandler (recebeCep.world (.error "offline") (.error "offline")) ""
        (recebeCep.post (some "")) recebeCep.Others.quiet).w.StatusCode ≠ 422 :=
  ⟨not_eightDigits_empty, by decide, by decide⟩

/-- C1 (instance): the string of eight digits followed by a newline is
rejected by the pattern, and the Resolver answers it with 422. -/
theorem postal_code_check_newline :
    validate.MatchString "01001000\n" = false ∧
      (temperaturacep.ProcuraCepHandler (temperaturacep.world (.error "offline")
        (.error "offline") false) (temperaturacep.get "01001000\n")).w.StatusCode = 422 := by
  have h := postal_code_check (temperaturacep.world (.error "offline") (.error "offline") false)
    (recebeCep.world (.error "offline") (.error "offline"))
  have hn : ¬ eightDigits "01001000\n" := by
    intro hd
    exact absurd hd.1 (by decide)
  exact ⟨validate_false_of_not _ hn, (h.2.1 (temperaturacep.get "01001000\n") rfl hn).1⟩

/-! ## The Gateway -/

theorem eightDigits_ne_empty (s : String) (h : eightDigits s) : s ≠ "" := by
  intro hs
  rw [hs] at h
  exact not_eightDigits_empty h

theorem validate_true_of (s : String) (h : eightDigits s) : validate.MatchString s = true :=
  (validate_iff s).mpr h

/-- C3 (the code at the failing input): from a fresh process a request
without the cep key is answered 400 with the missing-parameter message; after
a request that carried a valid cep the same request reaches the Resolver with
the earlier cep and is answered 404 here; after one that carried an invalid
cep it is answered 422. -/
theorem gateway_missing_cep_reuses_previous :
    ((recebeCep.serve (recebeCep.world (.ok ⟨404, .ok ""⟩) (.error "")) []
        (recebeCep.post none)).w.StatusCode = 400 ∧
      (recebeCep.serve (recebeCep.world (.ok ⟨404, .ok ""⟩) (.error "")) []
        (recebeCep.post none)).w.body = [.text "o parâmetro cep é obrigatório"]) ∧
    ((recebeCep.serve (recebeCep.world (.ok ⟨404, .ok ""⟩) (.error ""))
        [recebeCep.post (some "01001000")] (recebeCep.post none)).events =
          [.TemperaturaCep "01001000", .Do "http://temperaturaCep:8081/?cep=01001000"] ∧
      (recebeCep.serve (recebeCep.world (.ok ⟨404, .ok ""⟩) (.error ""))
        [recebeCep.post (some "01001000")] (recebeCep.post none)).w.StatusCode = 404) ∧
    (recebeCep.serve (recebeCep.world (.ok ⟨404, .ok ""⟩) (.error ""))
        [recebeCep.post (some "abc")] (recebeCep.post none)).w.StatusCode = 422 := by
  refine ⟨⟨?_, ?_⟩, ⟨?_, ?_⟩, ?_⟩ <;> decide

/-- When no other request stores into `paramCep` while it is handled, a
request whose decoded cep is not empty and is not eight ASCII digits is
answered 422 with body "cep inválido" and nothing is sent to the Resolver,
whatever the variable held before. -/
theorem gateway_invalid_cep_alone (env : recebeCep.Env) (paramCep : String)
    (r : recebeCep.Request) (c : String) (hp : r.Path = "/")
    (hb : r.Body = .ok ⟨some c, none⟩) (hc : c ≠ "") (hd : ¬ eightDigits c) :
    (recebeCep.ProcuraCepHandler env paramCep r recebeCep.Others.quiet).w.StatusCode = 422 ∧
      (recebeCep.ProcuraCepHandler env paramCep r recebeCep.Others.quiet).w.body =
        [.text "cep inválido"] ∧
      (recebeCep.ProcuraCepHandler env paramCep r recebeCep.Others.quiet).events = [] := by
  have hv : validate.MatchString (recebeCep.Others.quiet.read72 c) = false :=
    validate_false_of_not _ hd
  have hq : recebeCep.Others.quiet.read65 c = c := rfl
  simp [recebeCep.ProcuraCepHandler, hp, hb, hc, hq, hv, http.ResponseWriter.StatusCode,
    http.ResponseWriter.Write, http.ResponseWriter.WriteHeader, http.ResponseWriter.new,
    http.StatusUnprocessableEntity]

/-- C4 (the code at the failing input): a request with cep "abc" is handled
while another request stores "01001000" into `paramCep` between this
request's decoding and its test on line 65. Handled alone it is answered 422
without any event; with the store in between, both tests read "01001000",
TemperaturaCep is invoked with it, the Resolver is called and the client of
"abc" is answered 200 with the other request's temperature. The same happens
when the store lands between the two tests. -/
theorem gateway_invalid_cep_overwritten :
    ((recebeCep.ProcuraCepHandler
        (recebeCep.world (.ok ⟨200, .ok ""⟩)
          (.ok ⟨.finite false (45 * 2 ^ 47) (-48), .finite false (145 * 2 ^ 45) (-46),
            .finite false (591 * 2 ^ 43) (-44), "São Paulo"⟩))
        "" (recebeCep.post (some "abc")) recebeCep.Others.quiet).w.StatusCode = 422 ∧
      (recebeCep.ProcuraCepHandler
        (recebeCep.world (.ok ⟨200, .ok ""⟩)
          (.ok ⟨.finite false (45 * 2 ^ 47) (-48), .finite false (145 * 2 ^ 45) (-46),
            .finite false (591 * 2 ^ 43) (-44), "São Paulo"⟩))
        "" (recebeCep.post (some "abc")) recebeCep.Others.quiet).events = []) ∧
    ((recebeCep.ProcuraCepHandler
        (recebeCep.world (.ok ⟨200, .ok ""⟩)
          (.ok ⟨.finite false (45 * 2 ^ 47) (-48), .finite false (145 * 2 ^ 45) (-46),
            .finite false (591 * 2 ^ 43) (-44), "São Paulo"⟩))
        "" (recebeCep.post (some "abc")) ⟨some "01001000", none, none⟩).events =
          [.TemperaturaCep "01001000", .Do "http://temperaturaCep:8081/?cep=01001000"] ∧
      (recebeCep.ProcuraCepHandler
        (recebeCep.world (.ok ⟨200, .ok ""⟩)
          (.ok ⟨.finite false (45 * 2 ^ 47) (-48), .finite false (145 * 2 ^ 45) (-46),
            .finite false (591 * 2 ^ 43) (-44), "São Paulo"⟩))
        "" (recebeCep.post (some "abc")) ⟨some "01001000", none, none⟩).w.StatusCode = 200 ∧
      (recebeCep.ProcuraCepHandler
        (recebeCep.world (.ok ⟨200, .ok ""⟩)
          (.ok ⟨.finite false (45 * 2 ^ 47) (-48), .finite false (145 * 2 ^ 45) (-46),
            .finite false (591 * 2 ^ 43) (-44), "São Paulo"⟩))
        "" (recebeCep.post (some "abc")) ⟨some "01001000", none, none⟩).w.body =
          [.json ⟨.finite false (45 * 2 ^ 47) (-48), .finite false (145 * 2 ^ 45) (-46),
            .finite false (591 * 2 ^ 43) (-44), "São Paulo"⟩]) ∧
    (recebeCep.ProcuraCepHandler
        (recebeCep.world (.ok ⟨200, .ok ""⟩)
          (.ok ⟨.finite false (45 * 2 ^ 47) (-48), .finite false (145 * 2 ^ 45) (-46),
            .finite false (591 * 2 ^ 43) (-44), "São Paulo"⟩))
        "" (recebeCep.post (some "abc")) ⟨none, some "01001000", none⟩).events =
          [.TemperaturaCep "01001000", .Do "http://temperaturaCep:8081/?cep=01001000"] := by
  refine ⟨⟨?_, ?_⟩, ⟨?_, ?_, ?_⟩, ?_⟩ <;> decide

/-- C6: when the Gateway's tests pass and the Resolver's response to the
call it makes has status 404, the Gateway answers 404 with the not-found
message; the body of the Resolver's response, readable or not, plays no
part. In particular so for a request handled alone whose cep is eight
digits. -/
theorem gateway_not_found (env : recebeCep.Env) (paramCep : String) (r : recebeCep.Request)
    (doc : recebeCep.Document) (others : recebeCep.Others) (resp : http.ClientResponse)
    (hp : r.Path = "/") (hb : r.Body = .ok doc) (he : doc.err = none)
    (hc : others.read65 (doc.cep.getD paramCep) ≠ "")
    (hd : eightDigits (others.read72 (doc.cep.getD paramCep)))
    (hn : env.NewRequest
      (recebeCep.urlTemperaturaCep (others.read78 (doc.cep.getD paramCep))) = none)
    (hdo : env.Do
      (recebeCep.urlTemperaturaCep (others.read78 (doc.cep.getD paramCep))) = .ok resp)
    (hs : resp.StatusCode = 404) :
    (recebeCep.ProcuraCepHandler env paramCep r others).w.StatusCode = 404 ∧
      (recebeCep.ProcuraCepHandler env paramCep r others).w.body =
        [.text "não foi possível encontrar o CEP"] := by
  have hv := validate_true_of _ hd
  simp [recebeCep.ProcuraCepHandler, recebeCep.TemperaturaCep, hp, hb, he, hc, hv, hn, hdo, hs,
    http.ResponseWriter.StatusCode, http.ResponseWriter.Write, http.ResponseWriter.WriteHeader,
    http.ResponseWriter.new, http.StatusNotFound, recebeCep.notFound]

/-- C6 (witness): cep "99999999" handled alone, a 404 whose body cannot be
read. -/
theorem gateway_not_found_99999999 :
    (recebeCep.ProcuraCepHandler (recebeCep.world (.ok ⟨404, .error "unexpected EOF"⟩)
        (.error "")) "" (recebeCep.post (some "99999999"))
        recebeCep.Others.quiet).w.StatusCode = 404 ∧
      (recebeCep.ProcuraCepHandler (recebeCep.world (.ok ⟨404, .error "unexpected EOF"⟩)
        (.error "")) "" (recebeCep.post (some "99999999")) recebeCep.Others.quiet).w.body =
        [.text "não foi possível encontrar o CEP"] :=
  gateway_not_found _ "" (recebeCep.post (some "99999999")) ⟨some "99999999", none⟩
    recebeCep.Others.quiet ⟨404, .error "unexpected EOF"⟩ rfl rfl rfl (by decide)
    ⟨by decide, by decide⟩ rfl rfl rfl

theorem errorText_parse_ne (Quote : String → String) (u cause : String) :
    url.errorText Quote "parse" u cause ≠ recebeCep.notFound := by
  intro h
  have h2 := congrArg String.data h
  simp [url.errorText, recebeCep.notFound] at h2

theorem errorText_Get_ne (Quote : String → String) (u cause : String) :
    url.errorText Quote "Get" u cause ≠ recebeCep.notFound := by
  intro h
  have h2 := congrArg String.data h
  simp [url.errorText, recebeCep.notFound] at h2

theorem TemperaturaCep_of_fails (env : recebeCep.Env) (cep e : String)
    (h : recebeCep.Fails env cep e) :
    (recebeCep.TemperaturaCep env cep).1 = .error e := by
  unfold recebeCep.Fails at h
  rcases h with ⟨c, hn, he⟩ | ⟨hn, ⟨c, hdo, he⟩ | ⟨resp, hdo, hs, h | ⟨res, hb, hu⟩⟩⟩
  · simp [recebeCep.TemperaturaCep, hn, he]
  · simp [recebeCep.TemperaturaCep, hn, hdo, he]
  · simp [recebeCep.TemperaturaCep, hn, hdo, hs, h]
  · simp [recebeCep.TemperaturaCep, hn, hdo, hs, hb, hu]

theorem fails_ne_notFound (env : recebeCep.Env) (hlib : env.LibraryTexts) (cep e : String)
    (h : recebeCep.Fails env cep e) : e ≠ recebeCep.notFound := by
  unfold recebeCep.Fails at h
  rcases h with ⟨c, _, he⟩ | ⟨_, ⟨c, _, he⟩ | ⟨resp, hdo, _, h | ⟨res, _, hu⟩⟩⟩
  · rw [he]; exact errorText_parse_ne _ _ _
  · rw [he]; exact errorText_Get_ne _ _ _
  · exact hlib.1 _ resp e hdo h
  · exact hlib.2 res e hu

/-- C7: when the Gateway's tests pass and its downstream call fails with
error text `e`, the Gateway answers 500 with body "erro ao buscar o CEP: "
followed by `e`, and not 404. For request construction and transport the
error is a `*url.Error`, whose text is never the not-found message whatever
its cause says; for body read and JSON decoding the text is the library's,
and the libraries hold no error with that message (`LibraryTexts`). -/
theorem gateway_upstream_failure (env : recebeCep.Env) (paramCep : String)
    (r : recebeCep.Request) (doc : recebeCep.Document) (others : recebeCep.Others)
    (e : String) (hlib : env.LibraryTexts) (hp : r.Path = "/") (hb : r.Body = .ok doc)
    (he : doc.err = none) (hc : others.read65 (doc.cep.getD paramCep) ≠ "")
    (hd : eightDigits (others.read72 (doc.cep.getD paramCep)))
    (hf : recebeCep.Fails env (others.read78 (doc.cep.getD paramCep)) e) :
    (recebeCep.ProcuraCepHandler env paramCep r others).w.StatusCode = 500 ∧
      (recebeCep.ProcuraCepHandler env paramCep r others).w.body =
        [.text ("erro ao buscar o CEP: " ++ e)] ∧
      (recebeCep.ProcuraCepHandler env paramCep r others).w.StatusCode ≠ 404 := by
  have hv := validate_true_of _ hd
  have ht := TemperaturaCep_of_fails env _ e hf
  have hne := fails_ne_notFound env hlib _ e hf
  cases hT : recebeCep.TemperaturaCep env (others.read78 (doc.cep.getD paramCep)) with
  | mk res ev =>
    rw [hT] at ht
    simp only at ht
    subst ht
    simp [recebeCep.ProcuraCepHandler, hp, hb, he, hc, hv, hT, hne,
      http.ResponseWriter.StatusCode, http.ResponseWriter.Write,
      http.ResponseWriter.WriteHeader, http.ResponseWriter.new,
      http.StatusInternalServerError]

/-- C7 (witness): cep "01001000" handled alone, the client call failing
with cause "dial tcp: connection refused", even when that cause is the
not-found message itself. -/
theorem gateway_upstream_failure_refused :
    ((recebeCep.ProcuraCepHandler
        (recebeCep.world (.error "dial tcp: connection refused") (.error ""))
        "" (recebeCep.post (some "01001000")) recebeCep.Others.quiet).w.StatusCode = 500 ∧
      (recebeCep.ProcuraCepHandler
        (recebeCep.world (.error "dial tcp: connection refused") (.error ""))
        "" (recebeCep.post (some "01001000")) recebeCep.Others.quiet).w.body =
        [.text ("erro ao buscar o CEP: " ++
          "Get \"http://temperaturaCep:8081/?cep=01001000\": dial tcp: connection refused")]) ∧
    (recebeCep.ProcuraCepHandler
        (recebeCep.world (.error "não foi possível encontrar o CEP") (.error ""))
        "" (recebeCep.post (some "01001000")) recebeCep.Others.quiet).w.StatusCode = 500 :=
  ⟨⟨(gateway_upstream_failure
        (recebeCep.world (.error "dial tcp: connection refused") (.error "")) ""
        (recebeCep.post (some "01001000")) ⟨some "01001000", none⟩ recebeCep.Others.quiet
        "Get \"http://temperaturaCep:8081/?cep=01001000\": dial tcp: connection refused"
        ⟨fun _ _ _ h => by simp [recebeCep.world] at h,
          fun _ _ h => by simp [recebeCep.world] at h; rw [← h]; decide⟩
        rfl rfl rfl (by decide) ⟨by decide, by decide⟩
        (Or.inr ⟨rfl, Or.inl ⟨"dial tcp: connection refused", rfl, by decide⟩⟩)).1,
      (gateway_upstream_failure
        (recebeCep.world (.error "dial tcp: connection refused") (.error "")) ""
        (recebeCep.post (some "01001000")) ⟨some "01001000", none⟩ recebeCep.Others.quiet
        "Get \"http://temperaturaCep:8081/?cep=01001000\": dial tcp: connection refused"
        ⟨fun _ _ _ h => by simp [recebeCep.world] at h,
          fun _ _ h => by simp [recebeCep.world] at h; rw [← h]; decide⟩
        rfl rfl rfl (by decide) ⟨by decide, by decide⟩
        (Or.inr ⟨rfl, Or.inl ⟨"dial tcp: connection refused", rfl, by decide⟩⟩)).2.1⟩,
    (gateway_upstream_failure
        (recebeCep.world (.error "não foi possível encontrar o CEP") (.error "")) ""
        (recebeCep.post (some "01001000")) ⟨some "01001000", none⟩ recebeCep.Others.quiet
        "Get \"http://temperaturaCep:8081/?cep=01001000\": não foi possível encontrar o CEP"
        ⟨fun _ _ _ h => by simp [recebeCep.world] at h,
          fun _ _ h => by simp [recebeCep.world] at h; rw [← h]; decide⟩
        rfl rfl rfl (by decide) ⟨by decide, by decide⟩
        (Or.inr ⟨rfl, Or.inl ⟨"não foi possível encontrar o CEP", rfl, by decide⟩⟩)).1⟩

/-! ## The Resolver -/

/-- C5: the Resolver invokes EncontraTemperatura only for a cep that passed
the check and for which EncontraCep returned, without error, a result whose
erro is false (and then with that result's locality); when the result has
erro true it answers 404 with "CEP não encontrado" and the only events are
the directory lookup's. -/
theorem resolver_weather_only_when_found (env : temperaturacep.Env)
    (r : temperaturacep.Request) :
    (∀ city : String,
      temperaturacep.Event.EncontraTemperatura city ∈
          (temperaturacep.ProcuraCepHandler env r).events →
        validate.MatchString (r.QueryGet "cep") = true ∧
          ∃ d : temperaturacep.ViaCep,
            (temperaturacep.EncontraCep env (r.QueryGet "cep")).1 = .ok d ∧
              d.Erro = false ∧ d.Localidade = city) ∧
    (∀ d : temperaturacep.ViaCep, r.Path = "/" → validate.MatchString (r.QueryGet "cep") = true →
      (temperaturacep.EncontraCep env (r.QueryGet "cep")).1 = .ok d → d.Erro = true →
        (temperaturacep.ProcuraCepHandler env r).w.StatusCode = 404 ∧
          (temperaturacep.ProcuraCepHandler env r).w.body = [.text "CEP não encontrado"] ∧
          (temperaturacep.ProcuraCepHandler env r).events =
            [.EncontraCep (r.QueryGet "cep"),
              .Get (temperaturacep.urlViaCep (r.QueryGet "cep"))]) := by
  have hev : ∀ c, (temperaturacep.EncontraCep env c).2 =
      [.EncontraCep c, .Get (temperaturacep.urlViaCep c)] := by
    intro c
    unfold temperaturacep.EncontraCep
    cases env.Get (temperaturacep.urlViaCep c) with
    | error e => rfl
    | ok req =>
      cases hb : req.Body with
      | error e => simp [hb]
      | ok res =>
        cases hu : env.UnmarshalViaCep res with
        | error e => simp [hb, hu]
        | ok d => simp [hb, hu]
  have hwe : ∀ c, (temperaturacep.EncontraTemperatura env c).2 =
      [.EncontraTemperatura c, .Get (temperaturacep.urlWeatherApi env.unicode c)] := by
    intro c
    unfold temperaturacep.EncontraTemperatura
    cases env.Get (temperaturacep.urlWeatherApi env.unicode c) with
    | error e => rfl
    | ok req =>
      cases hb : req.Body with
      | error e => simp [hb]
      | ok res =>
        cases hu : env.UnmarshalWeatherApi res with
        | error e => simp [hb, hu]
        | ok d => simp [hb, hu]
  constructor
  · intro city hmem
    unfold temperaturacep.ProcuraCepHandler at hmem
    by_cases hp : r.Path = "/"
    · cases hv : validate.MatchString (r.QueryGet "cep") with
      | false => simp [hp, hv] at hmem
      | true =>
        have h1 := hev (r.QueryGet "cep")
        cases hc : temperaturacep.EncontraCep env (r.QueryGet "cep") with
        | mk res ev =>
          rw [hc] at h1
          simp only at h1
          cases res with
          | error e => simp [hp, hv, hc, h1] at hmem
          | ok d =>
            cases hE : d.Erro with
            | true => simp [hp, hv, hc, hE, h1] at hmem
            | false =>
              have h2 := hwe d.Localidade
              cases hw : temperaturacep.EncontraTemperatura env d.Localidade with
              | mk res2 ev2 =>
                rw [hw] at h2
                simp only at h2
                refine ⟨rfl, d, rfl, hE, ?_⟩
                cases res2 with
                | error e =>
                  simp [hp, hv, hc, hE, hw, h1, h2] at hmem
                  exact hmem.symm
                | ok wth =>
                  simp [hp, hv, hc, hE, hw, h1, h2] at hmem
                  exact hmem.symm
    · simp [hp] at hmem
  · intro d hp hv hc hE
    have h1 := hev (r.QueryGet "cep")
    cases hc2 : temperaturacep.EncontraCep env (r.QueryGet "cep") with
    | mk res ev =>
      rw [hc2] at h1 hc
      simp only at h1 hc
      subst hc
      simp [temperaturacep.ProcuraCepHandler, hp, hv, hc2, hE, h1,
        http.ResponseWriter.StatusCode, http.ResponseWriter.Write,
        http.ResponseWriter.WriteHeader, http.ResponseWriter.new, http.StatusNotFound]

/-- C5 (instance): cep "99999999", which the directory reports as unknown. -/
theorem resolver_unknown_cep_no_weather :
    (temperaturacep.ProcuraCepHandler
        (temperaturacep.world (.ok ⟨"", true⟩) (.error "") false)
        (temperaturacep.get "99999999")).w.StatusCode = 404 ∧
      (temperaturacep.ProcuraCepHandler
        (temperaturacep.world (.ok ⟨"", true⟩) (.error "") false)
        (temperaturacep.get "99999999")).events =
        [.EncontraCep "99999999", .Get "http://viacep.com.br/ws/99999999/json/"] := by
  have h := (resolver_weather_only_when_found
    (temperaturacep.world (.ok ⟨"", true⟩) (.error "") false)
    (temperaturacep.get "99999999")).2 ⟨"", true⟩ rfl (by decide) rfl rfl
  exact ⟨h.1, h.2.2⟩

/-- C8 (the code at the failing input): the directory finds the cep, the
weather provider's body does not decode; the Resolver's response has status
200 and content type JSON, and its body is the error text. -/
theorem resolver_weather_failure_is_200 :
    (temperaturacep.ProcuraCepHandler
        (temperaturacep.world (.ok ⟨"São Paulo", false⟩) (.error "unexpected end of JSON input")
          false)
        (temperaturacep.get "01001000")).w.StatusCode = 200 ∧
      (temperaturacep.ProcuraCepHandler
        (temperaturacep.world (.ok ⟨"São Paulo", false⟩) (.error "unexpected end of JSON input")
          false)
        (temperaturacep.get "01001000")).w.sent = [("Content-Type", "application/json")] ∧
      (temperaturacep.ProcuraCepHandler
        (temperaturacep.world (.ok ⟨"São Paulo", false⟩) (.error "unexpected end of JSON input")
          false)
        (temperaturacep.get "01001000")).w.body =
        [.text "erro ao procurar temperatura: unexpected end of JSON input"] := by
  refine ⟨?_, ?_, ?_⟩ <;> decide

/-! ## Unit conversion -/

namespace float64

/-- The constant 1.8 of the program text: the float64 nearest to 9/5, which
lies strictly between the midpoints to its two neighbours. -/
theorem ofRat_9_5 :
    ofRat false 9 5 = .finite false 8106479329266893 (-52) ∧
      5 * (2 * 8106479329266893 - 1) < 9 * 2 ^ 53 ∧
      9 * 2 ^ 53 < 5 * (2 * 8106479329266893 + 1) := by
  decide

/-- The constants 32 and 273 of the program text. -/
theorem ofRat_32_273 :
    ofRat false 32 1 = .finite false (2 ^ 52) (-47) ∧
      ofRat false 273 1 = .finite false (273 * 2 ^ 44) (-44) := by
  decide

set_option exponentiation.threshold 4096 in
set_option maxRecDepth 100000 in
theorem mulAdd_0 (fused : Bool) :
    mulAdd fused (.finite false 0 (-1074)) (.finite false 8106479329266893 (-52))
        (.finite false (2 ^ 52) (-47)) = .finite false (2 ^ 52) (-47) ∧
      (F64.finite false 0 (-1074)).add (.finite false (273 * 2 ^ 44) (-44)) =
        .finite false (273 * 2 ^ 44) (-44) := by
  cases fused <;> decide

set_option maxRecDepth 100000 in
theorem mulAdd_100 (fused : Bool) :
    mulAdd fused (.finite false (100 * 2 ^ 46) (-46)) (.finite false 8106479329266893 (-52))
        (.finite false (2 ^ 52) (-47)) = .finite false (212 * 2 ^ 45) (-45) ∧
      (F64.finite false (100 * 2 ^ 46) (-46)).add (.finite false (273 * 2 ^ 44) (-44)) =
        .finite false (373 * 2 ^ 44) (-44) := by
  cases fused <;> decide

set_option maxRecDepth 100000 in
theorem mulAdd_22_5 (fused : Bool) :
    mulAdd fused (.finite false (45 * 2 ^ 47) (-48)) (.finite false 8106479329266893 (-52))
        (.finite false (2 ^ 52) (-47)) = .finite false (145 * 2 ^ 45) (-46) ∧
      (F64.finite false (45 * 2 ^ 47) (-48)).add (.finite false (273 * 2 ^ 44) (-44)) =
        .finite false (591 * 2 ^ 43) (-44) := by
  cases fused <;> decide

end float64

/-- C2: when the weather provider's response decodes to a document with
Celsius reading `c`, EncontraTemperatura returns the record with TempC `c`,
TempF `c*1.8 + 32` and TempK `c + 273` in float64 arithmetic (fused or not),
and as City the argument itself, while the request carries the normalised
name. The constants are written as float64 values: 1.8 is
8106479329266893 * 2^-52, 32 is 2^52 * 2^-47, 273 is 273 * 2^44 * 2^-44. A
reading of 0 gives 32 and 273; one of 100 (100 * 2^46 * 2^-46) gives 212
(212 * 2^45 * 2^-45) and 373 (373 * 2^44 * 2^-44); one of 22.5
(45 * 2^47 * 2^-48) gives 72.5 (145 * 2^45 * 2^-46) and 295.5
(591 * 2^43 * 2^-44). -/
theorem EncontraTemperatura_record (env : temperaturacep.Env) (city : String)
    (req : http.ClientResponse) (res : String) (data : temperaturacep.WeatherApi)
    (hg : env.Get (temperaturacep.urlWeatherApi env.unicode city) = .ok req)
    (hb : req.Body = .ok res) (hu : env.UnmarshalWeatherApi res = .ok data) :
    (temperaturacep.EncontraTemperatura env city).1 =
        .ok { TempC := data.Current.TempC,
              TempF := float64.mulAdd env.fused data.Current.TempC
                (.finite false 8106479329266893 (-52)) (.finite false (2 ^ 52) (-47)),
              TempK := data.Current.TempC.add (.finite false (273 * 2 ^ 44) (-44)),
              City := city } ∧
      (temperaturacep.EncontraTemperatura env city).2 =
        [.EncontraTemperatura city,
          .Get ("http://api.weatherapi.com/v1/current.json?key=12969ce544064451ab2103040240905&aqi=no&q="
            ++ temperaturacep.transCidade env.unicode city)] ∧
      (data.Current.TempC = .finite false 0 (-1074) →
        (temperaturacep.EncontraTemperatura env city).1 =
          .ok ⟨.finite false 0 (-1074), .finite false (2 ^ 52) (-47),
            .finite false (273 * 2 ^ 44) (-44), city⟩) ∧
      (data.Current.TempC = .finite false (100 * 2 ^ 46) (-46) →
        (temperaturacep.EncontraTemperatura env city).1 =
          .ok ⟨.finite false (100 * 2 ^ 46) (-46), .finite false (212 * 2 ^ 45) (-45),
            .finite false (373 * 2 ^ 44) (-44), city⟩) ∧
      (data.Current.TempC = .finite false (45 * 2 ^ 47) (-48) →
        (temperaturacep.EncontraTemperatura env city).1 =
          .ok ⟨.finite false (45 * 2 ^ 47) (-48), .finite false (145 * 2 ^ 45) (-46),
            .finite false (591 * 2 ^ 43) (-44), city⟩) := by
  have h1 : (temperaturacep.EncontraTemperatura env city).1 =
      .ok { TempC := data.Current.TempC,
            TempF := float64.mulAdd env.fused data.Current.TempC
              (.finite false 8106479329266893 (-52)) (.finite false (2 ^ 52) (-47)),
            TempK := data.Current.TempC.add (.finite false (273 * 2 ^ 44) (-44)),
            City := city } := by
    simp only [temperaturacep.EncontraTemperatura, hg, hb, hu, float64.ofRat_9_5.1,
      float64.ofRat_32_273.1, float64.ofRat_32_273.2]
  have h2 : (temperaturacep.EncontraTemperatura env city).2 =
      [.EncontraTemperatura city, .Get (temperaturacep.urlWeatherApi env.unicode city)] := by
    simp [temperaturacep.EncontraTemperatura, hg, hb, hu]
  refine ⟨h1, h2, ?_, ?_, ?_⟩
  · intro hc
    rw [h1, hc, (float64.mulAdd_0 env.fused).1, (float64.mulAdd_0 env.fused).2]
  · intro hc
    rw [h1, hc, (float64.mulAdd_100 env.fused).1, (float64.mulAdd_100 env.fused).2]
  · intro hc
    rw [h1, hc, (float64.mulAdd_22_5 env.fused).1, (float64.mulAdd_22_5 env.fused).2]

/-- C2 (witness): city "São Paulo" with a reading of 22.5 gives the record
with 22.5, 72.5, 295.5 and "São Paulo", and the request asks for
"Sao+Paulo". -/
theorem EncontraTemperatura_sao_paulo :
    (temperaturacep.EncontraTemperatura
        (temperaturacep.world (.ok ⟨"São Paulo", false⟩)
          (.ok (temperaturacep.reading (.finite false (45 * 2 ^ 47) (-48)))) false)
        "São Paulo").1 =
      .ok ⟨.finite false (45 * 2 ^ 47) (-48), .finite false (145 * 2 ^ 45) (-46),
        .finite false (591 * 2 ^ 43) (-44), "São Paulo"⟩ :=
  (EncontraTemperatura_record
    (temperaturacep.world (.ok ⟨"São Paulo", false⟩)
      (.ok (temperaturacep.reading (.finite false (45 * 2 ^ 47) (-48)))) false) "São Paulo"
    ⟨200, .ok ""⟩ "" (temperaturacep.reading (.finite false (45 * 2 ^ 47) (-48)))
    rfl rfl rfl).2.2.2.2 rfl

/-! ## Query escaping -/

namespace url
theorem utf8_append (a b : List Char) : utf8 (a ++ b) = utf8 a ++ utf8 b := by
  induction a with
  | nil => rfl
  | cons c cs ih => simp [utf8, ih]

theorem unescape_percent (a b : Nat) (rest : List Nat) :
    unescape (37 :: a :: b :: rest) =
      if ishex a && ishex b then
        match unescape rest with
        | .ok t => .ok ((unhex a * 16 + unhex b) :: t)
        | .error e => .error e
      else .error [37, a, b] := by
  rw [unescape]

theorem unescape_other (c : Nat) (rest : List Nat) (h : c ≠ 37) :
    unescape (c :: rest) =
      match unescape rest with
      | .ok t => .ok ((if c = 43 then 32 else c) :: t)
      | .error e => .error e := by
  rw [unescape]
  · intro a b r hh _
    exact h hh
  · intro x hh _
    exact h hh
  · intro hh _
    exact h hh

theorem hex_roundtrip :
    ∀ n : Nat, n < 16 → ishex (upperhex n) = true ∧ unhex (upperhex n) = n := by
  decide

theorem char_ofNat_toNat_small : ∀ b : Nat, b < 128 → (Char.ofNat b).toNat = b := by
  decide

theorem upperhex_lt : ∀ n : Nat, n < 16 → upperhex n < 128 := by
  decide

theorem shouldEscape_false_bounds (c : Nat) (h : shouldEscape c = false) :
    c < 128 ∧ c ≠ 37 ∧ c ≠ 43 ∧ c ≠ 32 := by
  unfold shouldEscape at h
  split at h
  · omega
  · split at h
    · omega
    · simp at h

theorem escapeByte_lt (c : Nat) (hc : c < 256) : ∀ b ∈ escapeByte c, b < 128 := by
  intro b hb
  unfold escapeByte at hb
  split at hb
  · simp at hb; omega
  · split at hb
    · simp at hb
      rcases hb with hb | hb | hb
      · omega
      · rw [hb]; exact upperhex_lt _ (by omega)
      · rw [hb]; exact upperhex_lt _ (by omega)
    · rename_i h1 h2
      simp at hb
      rw [hb]
      exact (shouldEscape_false_bounds c (by simpa using h2)).1

theorem escape_lt (bs : List Nat) (h : ∀ b ∈ bs, b < 256) : ∀ b ∈ escape bs, b < 128 := by
  induction bs with
  | nil => simp [escape]
  | cons c cs ih =>
    intro b hb
    simp only [escape, List.mem_append] at hb
    rcases hb with hb | hb
    · exact escapeByte_lt c (h c (by simp)) b hb
    · exact ih (fun b hb => h b (by simp [hb])) b hb

theorem unescape_escapeByte (c : Nat) (rest : List Nat) (hc : c < 256) :
    unescape (escapeByte c ++ rest) =
      match unescape rest with
      | .ok t => .ok (c :: t)
      | .error e => .error e := by
  unfold escapeByte
  split
  · rename_i h
    rw [List.singleton_append, unescape_other 43 rest (by decide), h]
    rfl
  · split
    · have h1 := hex_roundtrip (c / 16) (by omega)
      have h2 := hex_roundtrip (c % 16) (by omega)
      simp only [List.cons_append, List.nil_append]
      rw [unescape_percent, h1.1, h1.2, h2.1, h2.2]
      have h3 : c / 16 * 16 + c % 16 = c := by omega
      simp [h3]
    · rename_i h1 h2
      have hb := shouldEscape_false_bounds c (by simpa using h2)
      rw [List.singleton_append, unescape_other c rest hb.2.1]
      simp [hb.2.2.1]

theorem unescape_escape (bs : List Nat) (h : ∀ b ∈ bs, b < 256) :
    unescape (escape bs) = .ok bs := by
  induction bs with
  | nil => simp [escape, unescape]
  | cons c cs ih =>
    rw [escape, unescape_escapeByte c _ (h c (by simp)), ih (fun b hb => h b (by simp [hb]))]

theorem utf8EncodeChar_lt (c : Char) : ∀ b ∈ utf8EncodeChar c, b < 256 := by
  intro b hb
  have hv : c.toNat < 1114112 := by
    have := c.valid
    simp only [Char.toNat]
    rcases this with h | ⟨_, h⟩ <;> simp only [UInt32.toNat] at * <;> omega
  unfold utf8EncodeChar at hb
  simp only at hb
  split at hb
  · simp at hb; omega
  · split at hb
    · simp at hb; omega
    · split at hb
      · simp at hb; omega
      · simp at hb; omega

theorem utf8_lt (s : List Char) : ∀ b ∈ utf8 s, b < 256 := by
  induction s with
  | nil => simp [utf8]
  | cons c cs ih =>
    intro b hb
    simp only [utf8, List.mem_append] at hb
    rcases hb with hb | hb
    · exact utf8EncodeChar_lt c b hb
    · exact ih b hb

theorem utf8_map_ofNat (bs : List Nat) (h : ∀ b ∈ bs, b < 128) :
    utf8 (bs.map Char.ofNat) = bs := by
  induction bs with
  | nil => rfl
  | cons c cs ih =>
    have hc : c < 128 := h c (by simp)
    have ht := char_ofNat_toNat_small c hc
    simp only [List.map_cons, utf8, utf8EncodeChar, ht, hc, if_true]
    rw [ih (fun b hb => h b (by simp [hb]))]
    rfl

theorem QueryUnescape_QueryEscape (s : String) :
    QueryUnescape (QueryEscape s) = .ok (utf8 s.data) := by
  unfold QueryUnescape QueryEscape
  simp only
  rw [utf8_map_ofNat _ (escape_lt _ (utf8_lt _)), unescape_escape _ (utf8_lt _)]

end url

/-! ## Normalisation of ASCII text -/

namespace norm

theorem decompose_ascii (T : Tables) (hT : T.ASCIIStarters) (s : List Char)
    (hs : ∀ c ∈ s, c.toNat < 128) : decompose T s = s := by
  induction s with
  | nil => rfl
  | cons c cs ih =>
    rw [decompose, (hT c (hs c (by simp))).1, ih (fun d hd => hs d (by simp [hd]))]
    rfl

theorem foldl_place_ascii (T : Tables) (hT : T.ASCIIStarters) (s : List Char)
    (hs : ∀ c ∈ s, c.toNat < 128) :
    ∀ acc : List Char, s.foldl (fun acc c => place T c acc) acc = s.reverse ++ acc := by
  induction s with
  | nil => intro acc; rfl
  | cons c cs ih =>
    intro acc
    have hc : T.ccc c = 0 := (hT c (hs c (by simp))).2.1
    have hp : place T c acc = c :: acc := by
      cases acc with
      | nil => rfl
      | cons d ds => simp [place, hc]
    rw [List.foldl_cons, hp, ih (fun d hd => hs d (by simp [hd]))]
    simp

theorem reorder_ascii (T : Tables) (hT : T.ASCIIStarters) (s : List Char)
    (hs : ∀ c ∈ s, c.toNat < 128) : reorder T s = s := by
  rw [reorder, foldl_place_ascii T hT s hs]
  simp

theorem foldl_composeStep_ascii (T : Tables) (hT : T.ASCIIStarters) (s : List Char)
    (hs : ∀ c ∈ s, c.toNat < 128) :
    ∀ st : Composing, st.marks = [] → (∀ x, st.starter = some x → x.toNat < 128) →
      (s.foldl (composeStep T) st).flush.reverse = st.flush.reverse ++ s := by
  induction s with
  | nil => intro st _ _; simp
  | cons c cs ih =>
    intro st hm hx
    have hc := hT c (hs c (by simp))
    rw [List.foldl_cons]
    cases hst : st.starter with
    | none =>
      have hstep : composeStep T st c = { st with starter := some c } := by
        simp [composeStep, hst, hc.2.1]
      have h2 := ih (fun d hd => hs d (by simp [hd])) { st with starter := some c } hm
        (by intro x hx2; simp at hx2; rw [← hx2]; exact hs c (by simp))
      rw [hstep, h2]
      simp [Composing.flush, hst, hm]
    | some x =>
      have hxa := hx x hst
      have hstep : composeStep T st c = ⟨st.flush, some c, []⟩ := by
        simp [composeStep, hst, hm, hc.2.1, (hT x hxa).2.2.2 c (hs c (by simp))]
      have h2 := ih (fun d hd => hs d (by simp [hd])) ⟨st.flush, some c, []⟩ rfl
        (by intro y hy; simp at hy; rw [← hy]; exact hs c (by simp))
      rw [hstep, h2]
      simp [Composing.flush, hst, hm]

theorem compose_ascii (T : Tables) (hT : T.ASCIIStarters) (s : List Char)
    (hs : ∀ c ∈ s, c.toNat < 128) : compose T s = s := by
  rw [compose, foldl_composeStep_ascii T hT s hs _ rfl (by intro x hx; simp at hx)]
  simp [Composing.flush]

theorem uax15_asciiInert (T : Tables) (hT : T.ASCIIStarters) : (uax15 T).ASCIIInert := by
  refine ⟨?_, fun c hc => (hT c hc).2.2.1⟩
  intro s hs
  simp only [uax15]
  rw [decompose_ascii T hT s hs, reorder_ascii T hT s hs, compose_ascii T hT s hs]
  exact ⟨rfl, rfl⟩

set_option maxRecDepth 100000 in
theorem latin1_codes : ∀ n : Nat, n < 128 →
    latin1.find? (fun r => r.1 == n) = none ∧ n ∉ latin1Marks ∧
      latin1.all (fun r => r.2.2 != n) = true := by
  decide

theorem ucd_asciiStarters : ucd.ASCIIStarters := by
  intro c hc
  have h := latin1_codes c.toNat hc
  refine ⟨?_, ?_, ?_, ?_⟩
  · simp [ucd, h.1]
  · have : c.toNat ≠ 0x0327 := by omega
    simp [ucd, h.2.1, this]
  · simp [ucd, h.2.1]
  · intro d hd
    have h2 := (latin1_codes d.toNat hd).2.2
    have : latin1.find? (fun r => r.2.1 == c.toNat && r.2.2 == d.toNat) = none := by
      rw [List.find?_eq_none]
      intro r hr
      have := (List.all_eq_true.mp h2) r hr
      simp at this
      simp [this]
    simp [ucd, this]

end norm

/-! ## The city name in the query -/

theorem char_le_iff (a c : Char) : a ≤ c ↔ a.toNat ≤ c.toNat := by
  rw [Char.le_def]
  exact Iff.rfl

theorem unreservedChar_code (c : Char) (h : unreservedChar c) :
    (97 ≤ c.toNat ∧ c.toNat ≤ 122) ∨ (65 ≤ c.toNat ∧ c.toNat ≤ 90) ∨
      (48 ≤ c.toNat ∧ c.toNat ≤ 57) ∨ c.toNat = 45 ∨ c.toNat = 95 ∨ c.toNat = 46 ∨
      c.toNat = 126 := by
  unfold unreservedChar at h
  simp only [char_le_iff] at h
  rcases h with h | h | h | h | h | h | h
  · exact Or.inl h
  · exact Or.inr (Or.inl h)
  · exact Or.inr (Or.inr (Or.inl h))
  · subst h; decide
  · subst h; decide
  · subst h; decide
  · subst h; decide

theorem unreservedChar_ascii (c : Char) (h : unreservedChar c) : c.toNat < 128 := by
  have := unreservedChar_code c h
  omega

theorem escape_utf8_unreserved (l : List Char) (h : ∀ c ∈ l, unreservedChar c) :
    (url.escape (url.utf8 l)).map Char.ofNat = l := by
  induction l with
  | nil => rfl
  | cons c cs ih =>
    have hc := unreservedChar_code c (h c (by simp))
    have h1 : url.utf8EncodeChar c = [c.toNat] := by
      have : c.toNat < 128 := by omega
      simp [url.utf8EncodeChar, this]
    have h2 : url.escapeByte c.toNat = [c.toNat] := by
      have h32 : c.toNat ≠ 32 := by omega
      have hse : url.shouldEscape c.toNat = false := by
        unfold url.shouldEscape
        split
        · rfl
        · split
          · rfl
          · omega
      simp [url.escapeByte, h32, hse]
    rw [url.utf8, h1, List.singleton_append, url.escape, h2, List.singleton_append,
      List.map_cons, Char.ofNat_toNat, ih (fun d hd => h d (by simp [hd]))]

/-- C10: under a library that leaves ASCII text alone, `transCidade` returns
every string of ASCII letters, digits, hyphens, underscores, full stops and
tildes unchanged, the empty string included, so applying it twice gives the
same as applying it once. -/
theorem transCidade_unreserved (lib : norm.Library) (hlib : lib.ASCIIInert) (s : String)
    (hs : ∀ c ∈ s.data, unreservedChar c) :
    temperaturacep.transCidade lib s = s ∧
      temperaturacep.transCidade lib (temperaturacep.transCidade lib s) =
        temperaturacep.transCidade lib s := by
  have hascii : ∀ c ∈ s.data, c.toNat < 128 := fun c hc => unreservedChar_ascii c (hs c hc)
  have hfilter : (s.data.filter (fun r => !temperaturacep.isMn lib r)) = s.data := by
    rw [List.filter_eq_self]
    intro c hc
    simp [temperaturacep.isMn, hlib.2 c (hascii c hc)]
  have h1 : temperaturacep.transCidade lib s = s := by
    unfold temperaturacep.transCidade
    simp only
    rw [(hlib.1 s.data hascii).1, hfilter, (hlib.1 s.data hascii).2]
    unfold url.QueryEscape
    rw [escape_utf8_unreserved s.data hs]
  exact ⟨h1, by rw [h1, h1]⟩

/-- C10 (witness): with the normal forms of Annex 15 over the excerpt of the
character database, "Fortaleza" and the empty string come back unchanged. -/
theorem transCidade_fortaleza :
    temperaturacep.transCidade (norm.uax15 norm.ucd) "Fortaleza" = "Fortaleza" ∧
      temperaturacep.transCidade (norm.uax15 norm.ucd) "" = "" :=
  ⟨(transCidade_unreserved (norm.uax15 norm.ucd) (norm.uax15_asciiInert _ norm.ucd_asciiStarters)
      "Fortaleza" (by unfold unreservedChar; decide)).1,
    (transCidade_unreserved (norm.uax15 norm.ucd) (norm.uax15_asciiInert _ norm.ucd_asciiStarters)
      "" (by intro c hc; simp at hc)).1⟩

/-- C9 (amended): query-unescaping `transCidade s` gives the bytes of the
NFC of the NFD of `s` with the nonspacing marks (general category Mn)
removed; with the normal forms of Annex 15 over the excerpt of the character
database, "São Paulo" becomes "Sao+Paulo", which decodes to "Sao Paulo". -/
theorem transCidade_decodes (lib : norm.Library) (s : String) :
    url.QueryUnescape (temperaturacep.transCidade lib s) =
        .ok (url.utf8 (stripNonspacingMarks lib s)) ∧
      temperaturacep.transCidade (norm.uax15 norm.ucd) "São Paulo" = "Sao+Paulo" ∧
      url.QueryUnescape (temperaturacep.transCidade (norm.uax15 norm.ucd) "São Paulo") =
        .ok (url.utf8 "Sao Paulo".data) := by
  refine ⟨?_, by decide, by decide⟩
  unfold temperaturacep.transCidade stripNonspacingMarks temperaturacep.isMn
  simp only
  rw [url.QueryUnescape_QueryEscape]

/-- C9 (counterexample): U+20DD COMBINING ENCLOSING CIRCLE is a combining
mark, of category Me; `transCidade` keeps it, so the decoded result of the
letter a followed by it is not the text with every mark removed. -/
theorem transCidade_keeps_enclosing_mark :
    norm.ucd.M (Char.ofNat 0x20DD) = true ∧ norm.ucd.Mn (Char.ofNat 0x20DD) = false ∧
      temperaturacep.transCidade (norm.uax15 norm.ucd) "a\u20DD" = "a%E2%83%9D" ∧
      url.QueryUnescape (temperaturacep.transCidade (norm.uax15 norm.ucd) "a\u20DD") =
        .ok (url.utf8 "a\u20DD".data) ∧
      stripAllMarks (norm.uax15 norm.ucd) "a\u20DD" = "a".data ∧
      url.QueryUnescape (temperaturacep.transCidade (norm.uax15 norm.ucd) "a\u20DD") ≠
        .ok (url.utf8 (stripAllMarks (norm.uax15 norm.ucd) "a\u20DD")) := by
  refine ⟨?_, ?_, ?_, ?_, ?_, ?_⟩ <;> decide
